import Mathlib

/-!
Shallow embedding of the AtoZ job-bot core (job extraction, classification,
accept/reject actions, cycle controller, results tracker) and proofs about it.

Sources embedded:
  * `Bot/AtoZ-Bot/bot/data_processor.py` — `extract_jobs`, `is_all_params_set`,
    `is_telephone_job`, `accept_from_board`, `reject_on_detail`
  * `Bot/AtoZ-Bot/bot/results_tracker.py` — class `ResultsTracker`
  * `Bot/AtoZ/persistent_bot.py` — `persistent_bot_cycle` (per-job decision
    logic and per-cycle accept cap)
  * `Bot/AtoZ-Bot/bot/config.py` — the default classification rule and
    `MAX_ACCEPT_PER_RUN`

Modelling conventions:
  * Wall-clock timestamps (`time.time()` floats) are modelled as integers `ℤ`;
    every property proved about them is purely order/additive-theoretic, so
    nothing depends on the carrier beyond a linear ordered additive group.
  * Browser-page state is modelled as explicit data (which selectors resolve,
    whether a click succeeds); Playwright calls that can raise are modelled in
    `Except PwError`, and Python `try/except` blocks become explicit `match`es
    on the `Except` value.
  * Python string operations used by the code (`.lower()`, `.strip()`,
    `.split(sep)`, the `in` substring test) are re-implemented over `Char`
    lists so that they evaluate inside the kernel.
-/

/-- Python `needle in haystack` on character lists: contiguous sublist test. -/
def subList (needle : List Char) : List Char → Bool
  | [] => needle.isEmpty
  | c :: rest => needle.isPrefixOf (c :: rest) || subList needle rest

/-- Python substring test `needle in haystack`. -/
def pyIn (needle haystack : String) : Bool := subList needle.data haystack.data

/-- Python `str.lower()` (ASCII case folding, which is all the code relies on). -/
def lowerStr (s : String) : String := ⟨s.data.map Char.toLower⟩

/-- Whitespace recognised by Python `str.strip()` (the subset that occurs here). -/
def isWs (c : Char) : Bool := c == ' ' || c == '\t' || c == '\n' || c == '\r'

/-- Drop whitespace from both ends of a character list. -/
def trimChars (l : List Char) : List Char :=
  ((l.dropWhile isWs).reverse.dropWhile isWs).reverse

/-- Python `str.strip()`. -/
def trimStr (s : String) : String := ⟨trimChars s.data⟩

/-- Helper for Python `str.split(sep)`: split a character list on a separator. -/
def splitOnChar (sep : Char) : List Char → List Char → List (List Char)
  | [], cur => [cur.reverse]
  | c :: rest, cur =>
    if c == sep then cur.reverse :: splitOnChar sep rest []
    else splitOnChar sep rest (c :: cur)

/-- Python `s.split(sep)[0]`: first field of a split (total, `""` stays `""`). -/
def headSplit (s : String) (sep : Char) : String :=
  ⟨(splitOnChar sep s.data []).headD []⟩

/-- Errors raised by the modelled Playwright operations. -/
inductive PwError where
  | timeout
  | crashed
deriving DecidableEq, Repr

/-- One job row as produced by `extract_jobs` in `data_processor.py`
(a Python dict with exactly these string keys). -/
structure Job where
  ref : String
  submitted : String
  appt_date : String
  appt_time : String
  duration : String
  language : String
  status : String
  view_url : String
deriving DecidableEq, Repr

/-- Python `job.get(field)` on the job dict: `none` models a missing key. -/
def Job.get (j : Job) (field : String) : Option String :=
  if field == "ref" then some j.ref
  else if field == "submitted" then some j.submitted
  else if field == "appt_date" then some j.appt_date
  else if field == "appt_time" then some j.appt_time
  else if field == "duration" then some j.duration
  else if field == "language" then some j.language
  else if field == "status" then some j.status
  else if field == "view_url" then some j.view_url
  else none

/-- `is_all_params_set` from `data_processor.py`:
`all(job.get(field) and str(job[field]).strip() for field in required_fields)`.
A missing key, an empty value, or an all-whitespace value is falsy. -/
def is_all_params_set (job : Job) (required_fields : List String) : Bool :=
  required_fields.all fun f =>
    match job.get f with
    | none => false
    | some v => !(trimStr v == "")

/-- `is_telephone_job` from `data_processor.py`, with the page navigation and
HTML parsing abstracted into the `Except`-valued fetch of the
interpreter-details text (`_extract_interpreter_details_text(html)`,
HTML parsing itself is out of scope). The `try/except` that turns any raised
error into `False` is the outer `match`. -/
def is_telephone_job (fetch : Except PwError String) (job_type : String)
    (exclude_types : List String) : Bool :=
  match fetch with
  | .error _ => false
  | .ok raw =>
    let details_text := lowerStr raw
    if details_text == "" then false
    else if exclude_types.any (fun ex => pyIn (lowerStr ex) details_text) then false
    else pyIn (lowerStr job_type) details_text

/-- The `accept_preconditions` block of `BOT_CONFIG` in `config.py`
(spec §3 `ClassificationRule`). -/
structure ClassificationRule where
  job_type : String
  exclude_types : List String
  required_fields : List String
deriving DecidableEq, Repr

/-- Default rule from `config.py`. -/
def defaultRule : ClassificationRule :=
  { job_type := "Telephone interpreting"
    exclude_types := ["Face-to-Face", "Face to Face", "In-Person", "Onsite"]
    required_fields :=
      ["ref", "submitted", "appt_date", "appt_time", "duration", "language", "status"] }

/-- `MAX_ACCEPT_PER_RUN` default from `config.py`. -/
def MAX_ACCEPT_PER_RUN : Nat := 5

/-- Classification verdict (spec §3): accept, reject with a reason, or skip. -/
inductive Verdict where
  | accept : Verdict
  | reject (reason : String) : Verdict
  | skip : Verdict
deriving DecidableEq, Repr

/-- The fixed rejection reason recorded by `persistent_bot_cycle`. -/
def faceToFaceReason : String := "Face-to-face job (not telephone translation)"

/-- Per-job decision logic of `persistent_bot_cycle` in `persistent_bot.py`
(lines 40–67), as a function of the job, the rule and the detail text the two
detail-page fetches return (`details_text`, deterministic within one cycle):
skip unless status contains "matched", required fields are set and a detail
link exists; then accept when `is_telephone_job` holds; otherwise reject with
the fixed reason when the lowered detail text contains an excluded type
(lowered); otherwise skip. -/
def classify_job (rule : ClassificationRule) (job : Job) (details_text : String) :
    Verdict :=
  if !(pyIn "matched" (lowerStr job.status)) then .skip
  else if !rule.required_fields.isEmpty && !(is_all_params_set job rule.required_fields)
    then .skip
  else if job.view_url == "" then .skip
  else if is_telephone_job (.ok details_text) rule.job_type rule.exclude_types then .accept
  else if rule.exclude_types.any
      (fun ex => pyIn (lowerStr ex) (lowerStr details_text)) then
    .reject faceToFaceReason
  else .skip

/-- One table cell (the text `inner_text()` would return). -/
structure Cell where
  text : String
deriving DecidableEq, Repr

/-- One `tr.table__row` of the job list: the `td[colspan]` query result, the
`td.table__data` query result, and the `href` of the
`a[href*='interpreter-jobs']` link inside the eighth cell, when present. -/
structure Row where
  colspan_cells : List Cell
  data_cells : List Cell
  view_href : Option String
deriving DecidableEq, Repr

/-- The job-list page: whether the
`section.content__table table tbody` selector becomes ready within the wait,
and the rows the `tbody tr.table__row` query returns. -/
structure ListPage where
  table_ready : Bool
  rows : List Row
deriving DecidableEq, Repr

/-- `page.wait_for_selector(...)` of `extract_jobs`: raises a timeout error
when the container never becomes ready. -/
def wait_for_selector (page : ListPage) : Except PwError Unit :=
  if page.table_ready then .ok () else .error .timeout

/-- Loop body of `extract_jobs` for one row: skip rows with a `td[colspan]`
cell, skip rows with fewer than 8 data cells, otherwise build the job dict
from the trimmed cell texts (a missing view link yields `view_url = ""`). -/
def row_to_job (row : Row) : Option Job :=
  if !row.colspan_cells.isEmpty then none
  else if row.data_cells.length < 8 then none
  else
    let cellText := fun i => (((row.data_cells.get? i).map fun c => trimStr c.text).getD "")
    some { ref := cellText 0, submitted := cellText 1, appt_date := cellText 2
           appt_time := cellText 3, duration := cellText 4, language := cellText 5
           status := cellText 6, view_url := row.view_href.getD "" }

/-- `extract_jobs` from `data_processor.py`: wait for the list container,
returning the (still empty) `jobs` list when the wait times out
(`except PlaywrightTimeoutError: return jobs`), else collect the surviving
rows. -/
def extract_jobs (page : ListPage) : Except PwError (List Job) :=
  match wait_for_selector page with
  | .error _ => .ok []
  | .ok _ => .ok (page.rows.filterMap row_to_job)

/-- A clickable page element; `click_ok = false` means `.click()` raises. -/
structure Element where
  click_ok : Bool
deriving DecidableEq, Repr

/-- `element.click()`. -/
def Element.click (e : Element) : Except PwError Unit :=
  if e.click_ok then .ok () else .error .crashed

/-- The accept form of one job on the board, as `accept_from_board` queries
it: the `button.btn.btn--primary` result and the `button[type='submit']`
result. -/
structure AcceptForm where
  primary_btn : Option Element
  submit_btn : Option Element
deriving DecidableEq, Repr

/-- The job board as `accept_from_board` sees it: for each numeric id, the
result of the `form[action*='/interpreter-jobs/ID/matched']` query. -/
structure BoardPage where
  accept_form : String → Option AcceptForm

/-- `accept_from_board` from `data_processor.py`: take the numeric prefix of
`ref`, find the matching form, find its button (primary, else submit), click
it; `False` when form or button is missing, and the whole body is wrapped in
`try/except Exception: return False`. -/
def accept_from_board (page : BoardPage) (ref : String) : Bool :=
  let body : Except PwError Bool :=
    let numeric_id := trimStr (headSplit ref '/')
    match page.accept_form numeric_id with
    | none => pure false
    | some form =>
      match form.primary_btn.orElse (fun _ => form.submit_btn) with
      | none => pure false
      | some btn => do
        btn.click
        pure true
  match body with
  | .ok b => b
  | .error _ => false

/-- The reject form of a detail page, as `reject_on_detail` queries it: the
`button, input[type='submit']` result inside it, and the form element itself
(the fallback click target when no inner button is found). -/
structure RejectForm where
  inner_btn : Option Element
  self_el : Element
deriving DecidableEq, Repr

/-- A job detail page as `reject_on_detail` sees it: the
`form[action*='matched/reject']` query result and the fallback
`input.btn.btn--reject, .btn.btn--reject` query result. -/
structure DetailPage where
  reject_form : Option RejectForm
  reject_btn : Option Element
deriving DecidableEq, Repr

/-- `reject_on_detail` from `data_processor.py`: click the reject form's
button (or the form itself), else fall back to a reject-styled button, else
`False`; any raised error is caught and becomes `False`. -/
def reject_on_detail (page : DetailPage) : Bool :=
  let body : Except PwError Bool :=
    match page.reject_form with
    | none =>
      match page.reject_btn with
      | some btn => do
        btn.click
        pure true
      | none => pure false
    | some form => do
      (form.inner_btn.getD form.self_el).click
      pure true
  match body with
  | .ok b => b
  | .error _ => false

/-- The element `accept_from_board` ends up clicking, when it locates one. -/
def accept_target (page : BoardPage) (ref : String) : Option Element :=
  (page.accept_form (trimStr (headSplit ref '/'))).bind fun form =>
    form.primary_btn.orElse (fun _ => form.submit_btn)

/-- The element `reject_on_detail` ends up clicking, when it locates one. -/
def reject_target (page : DetailPage) : Option Element :=
  match page.reject_form with
  | none => page.reject_btn
  | some form => some (form.inner_btn.getD form.self_el)

/-- An entry of `accepted_jobs`: the job dict plus `accepted_timestamp`
(`time.time()` at acceptance; the display-only `accepted_at` ISO string is
not modelled). -/
structure AcceptedEntry where
  job : Job
  accepted_timestamp : ℤ
deriving DecidableEq, Repr

/-- An entry of `rejected_jobs`: the job dict plus `rejected_timestamp` and
`rejection_reason` (the display-only `rejected_at` ISO string is not
modelled). -/
structure RejectedEntry where
  job : Job
  rejected_timestamp : ℤ
  rejection_reason : String
deriving DecidableEq, Repr

/-- State of class `ResultsTracker` in `results_tracker.py`. Timestamps are
modelled as `ℤ`; every method that reads `time.time()` takes the current
time `now` as an explicit argument. -/
structure ResultsTracker where
  report_interval : ℤ
  rejected_report_interval : ℤ
  last_report_time : ℤ
  last_rejected_report_time : ℤ
  accepted_jobs : List AcceptedEntry
  rejected_jobs : List RejectedEntry
  total_accepted : Nat
  total_rejected : Nat
  session_start_time : ℤ
  check_cycles : Nat
  login_status : String
  login_time : Option ℤ
  last_activity_time : Option ℤ
deriving DecidableEq, Repr

/-- `ResultsTracker.__init__`. -/
def ResultsTracker.init (report_interval rejected_report_interval now : ℤ) :
    ResultsTracker :=
  { report_interval := report_interval
    rejected_report_interval := rejected_report_interval
    last_report_time := now
    last_rejected_report_time := now
    accepted_jobs := []
    rejected_jobs := []
    total_accepted := 0
    total_rejected := 0
    session_start_time := now
    check_cycles := 0
    login_status := "Not attempted"
    login_time := none
    last_activity_time := none }

/-- `add_accepted_job`: append the timestamped job, bump `total_accepted`. -/
def ResultsTracker.add_accepted_job (s : ResultsTracker) (job : Job) (now : ℤ) :
    ResultsTracker :=
  { s with
    accepted_jobs := s.accepted_jobs ++ [{ job := job, accepted_timestamp := now }]
    total_accepted := s.total_accepted + 1 }

/-- `add_rejected_job`: append the timestamped job with its reason, bump
`total_rejected`. -/
def ResultsTracker.add_rejected_job (s : ResultsTracker) (job : Job)
    (reason : String) (now : ℤ) : ResultsTracker :=
  { s with
    rejected_jobs := s.rejected_jobs ++
      [{ job := job, rejected_timestamp := now, rejection_reason := reason }]
    total_rejected := s.total_rejected + 1 }

/-- `increment_check_cycle`. -/
def ResultsTracker.increment_check_cycle (s : ResultsTracker) (now : ℤ) :
    ResultsTracker :=
  { s with check_cycles := s.check_cycles + 1, last_activity_time := some now }

/-- `set_login_status`. -/
def ResultsTracker.set_login_status (s : ResultsTracker) (status : String)
    (success : Bool) (now : ℤ) : ResultsTracker :=
  { s with
    login_status := (if success then "✅ " else "❌ ") ++ status
    login_time := if success then some now else s.login_time
    last_activity_time := some now }

/-- `update_activity`. -/
def ResultsTracker.update_activity (s : ResultsTracker) (now : ℤ) :
    ResultsTracker :=
  { s with last_activity_time := some now }

/-- `should_report`: `(current_time - self.last_report_time) >= self.report_interval`. -/
def ResultsTracker.should_report (s : ResultsTracker) (now : ℤ) : Bool :=
  decide (s.report_interval ≤ now - s.last_report_time)

/-- `should_report_rejected`. -/
def ResultsTracker.should_report_rejected (s : ResultsTracker) (now : ℤ) : Bool :=
  decide (s.rejected_report_interval ≤ now - s.last_rejected_report_time)

/-- State effect of `report_results`: early-return when not due, else set
`last_report_time` to now (the rest of the method only prints). -/
def ResultsTracker.report_results (s : ResultsTracker) (now : ℤ) : ResultsTracker :=
  if s.should_report now then { s with last_report_time := now } else s

/-- State effect of `report_rejected_jobs`: early-return when not due, else
set `last_rejected_report_time` to now. -/
def ResultsTracker.report_rejected_jobs (s : ResultsTracker) (now : ℤ) :
    ResultsTracker :=
  if s.should_report_rejected now then { s with last_rejected_report_time := now }
  else s

/-- The state-derived fields of the dict `get_results_summary` returns
(`session_duration_*` is kept unrounded — `round(...)` is display-only;
`report_time`, an ISO-formatted wall-clock string, is not modelled). -/
structure ResultsSummary where
  session_duration_seconds : ℤ
  check_cycles : Nat
  login_status : String
  total_accepted : Nat
  total_rejected : Nat
  accepted_since_last_report : Nat
  jobs_since_last_report : List AcceptedEntry
deriving DecidableEq, Repr

/-- `get_results_summary`: the since-last-report delta keeps exactly the
accepted jobs with `job['accepted_timestamp'] > self.last_report_time`. -/
def ResultsTracker.get_results_summary (s : ResultsTracker) (now : ℤ) :
    ResultsSummary :=
  let jobs_since_last_report := s.accepted_jobs.filter
    fun j => decide (s.last_report_time < j.accepted_timestamp)
  { session_duration_seconds := now - s.session_start_time
    check_cycles := s.check_cycles
    login_status := s.login_status
    total_accepted := s.total_accepted
    total_rejected := s.total_rejected
    accepted_since_last_report := jobs_since_last_report.length
    jobs_since_last_report := jobs_since_last_report }

/-- One call into the tracker API, with the wall-clock time it observes. -/
inductive TrackerOp where
  | addAccepted (job : Job) (now : ℤ)
  | addRejected (job : Job) (reason : String) (now : ℤ)
  | incrementCheckCycle (now : ℤ)
  | setLoginStatus (status : String) (success : Bool) (now : ℤ)
  | updateActivity (now : ℤ)
  | reportResults (now : ℤ)
  | reportRejected (now : ℤ)
deriving DecidableEq, Repr

/-- Apply one tracker call to the tracker state. -/
def applyOp (s : ResultsTracker) : TrackerOp → ResultsTracker
  | .addAccepted job now => s.add_accepted_job job now
  | .addRejected job reason now => s.add_rejected_job job reason now
  | .incrementCheckCycle now => s.increment_check_cycle now
  | .setLoginStatus status success now => s.set_login_status status success now
  | .updateActivity now => s.update_activity now
  | .reportResults now => s.report_results now
  | .reportRejected now => s.report_rejected_jobs now

/-- Run a sequence of tracker calls. -/
def runOps (s : ResultsTracker) (ops : List TrackerOp) : ResultsTracker :=
  ops.foldl applyOp s

/-- Loop of `persistent_bot_cycle` over the extracted jobs, threading the
tracker state and the `accepted` counter. `details` gives the interpreter
details text the two fetches for a job return within this cycle;
`acceptOk`/`rejectOk` say whether the accept/reject UI action succeeds for a
job. A failed reject records nothing; a failed accept moves on without
counting. The loop breaks as soon as `accepted >= maxAccept`. -/
def persistent_bot_cycle_loop (rule : ClassificationRule) (maxAccept : Nat)
    (details : Job → String) (acceptOk rejectOk : Job → Bool) (now : ℤ) :
    List Job → ResultsTracker → Nat → ResultsTracker × Nat
  | [], tr, accepted => (tr, accepted)
  | job :: rest, tr, accepted =>
    if maxAccept ≤ accepted then (tr, accepted)
    else
      match classify_job rule job (details job) with
      | .skip => persistent_bot_cycle_loop rule maxAccept details acceptOk rejectOk
          now rest tr accepted
      | .reject reason =>
        if rejectOk job then
          persistent_bot_cycle_loop rule maxAccept details acceptOk rejectOk now rest
            (tr.add_rejected_job job reason now) accepted
        else
          persistent_bot_cycle_loop rule maxAccept details acceptOk rejectOk now rest
            tr accepted
      | .accept =>
        if acceptOk job then
          persistent_bot_cycle_loop rule maxAccept details acceptOk rejectOk now rest
            (tr.add_accepted_job job now) (accepted + 1)
        else
          persistent_bot_cycle_loop rule maxAccept details acceptOk rejectOk now rest
            tr accepted

/-- `persistent_bot_cycle` from `persistent_bot.py`, over an already
extracted job list: process jobs in order starting from `accepted = 0`,
returning the updated tracker and the cycle's accept count. -/
def persistent_bot_cycle (rule : ClassificationRule) (maxAccept : Nat)
    (details : Job → String) (acceptOk rejectOk : Job → Bool) (now : ℤ)
    (jobs : List Job) (tr : ResultsTracker) : ResultsTracker × Nat :=
  persistent_bot_cycle_loop rule maxAccept details acceptOk rejectOk now jobs tr 0

/-- Concrete page elements used by the closed instances below. -/
def jobW : Job :=
  { ref := "123/45", submitted := "2025-01-01", appt_date := "2025-01-02"
    appt_time := "09:00", duration := "30", language := "French"
    status := "Matched", view_url := "/interpreter-jobs/123" }

/-- A structurally valid row whose first cell is blank. -/
def rowBlankRef : Row :=
  { colspan_cells := [], data_cells := List.replicate 8 ⟨""⟩, view_href := none }

/-- The job `extract_jobs` builds from `rowBlankRef`. -/
def jobBlank : Job :=
  { ref := "", submitted := "", appt_date := "", appt_time := "", duration := ""
    language := "", status := "", view_url := "" }

/-- A ready list page containing only `rowBlankRef`. -/
def pageBlankRef : ListPage := { table_ready := true, rows := [rowBlankRef] }

/-- Any verdict `classify_job` rejects with carries the fixed reason string. -/
theorem classify_reject_reason (rule : ClassificationRule) (job : Job)
    (d r : String) (h : classify_job rule job d = .reject r) :
    r = faceToFaceReason := by
  unfold classify_job at h
  repeat' split at h
  all_goals first
    | exact Verdict.noConfusion h
    | (injection h with h2; exact h2.symm)

/-- C1: for every detail text containing both some member of
`rule.exclude_types` and `rule.job_type` as case-insensitive substrings, a
job that reaches the detail check (matched status, required fields set,
non-empty detail link) is classified `Reject`, never `Accept`: the
exclude-list check of `is_telephone_job` is evaluated before the accept-type
check. -/
theorem classify_exclude_overrides_accept
    (rule : ClassificationRule) (job : Job) (details ex : String)
    (hex : ex ∈ rule.exclude_types)
    (hexc : pyIn (lowerStr ex) (lowerStr details) = true)
    (_hacc : pyIn (lowerStr rule.job_type) (lowerStr details) = true)
    (hst : pyIn "matched" (lowerStr job.status) = true)
    (hreq : is_all_params_set job rule.required_fields = true)
    (hurl : (job.view_url == "") = false) :
    classify_job rule job details = .reject faceToFaceReason := by
  have hany : (rule.exclude_types.any fun e => pyIn (lowerStr e) (lowerStr details)) = true :=
    List.any_eq_true.mpr ⟨ex, hex, hexc⟩
  have htel : is_telephone_job (.ok details) rule.job_type rule.exclude_types = false := by
    unfold is_telephone_job
    by_cases hempty : (lowerStr details == "") = true
    · simp [hempty]
    · simp only [Bool.not_eq_true] at hempty
      simp [hempty, hany]
  unfold classify_job
  simp [hst, hreq, hurl, htel, hany]

/-- C1 witness: a matched telephone job whose details also mention an
excluded face-to-face type is rejected under the default rule. -/
theorem classify_exclude_overrides_accept_witness :
    classify_job defaultRule jobW "Face-to-Face Telephone interpreting required" =
      .reject faceToFaceReason :=
  classify_exclude_overrides_accept defaultRule jobW
    "Face-to-Face Telephone interpreting required" "Face-to-Face"
    (by decide) (by decide) (by decide) (by decide) (by decide) (by decide)

/-- The cycle loop never pushes the accept counter past the cap. -/
theorem persistent_bot_cycle_loop_le (rule : ClassificationRule) (maxAccept : Nat)
    (details : Job → String) (acceptOk rejectOk : Job → Bool) (now : ℤ) :
    ∀ (jobs : List Job) (tr : ResultsTracker) (accepted : Nat),
      accepted ≤ maxAccept →
      (persistent_bot_cycle_loop rule maxAccept details acceptOk rejectOk now jobs tr
        accepted).2 ≤ maxAccept := by
  intro jobs
  induction jobs with
  | nil =>
    intro tr accepted h
    simpa [persistent_bot_cycle_loop] using h
  | cons job rest ih =>
    intro tr accepted h
    unfold persistent_bot_cycle_loop
    by_cases hcap : maxAccept ≤ accepted
    · simpa [hcap] using h
    · rw [if_neg hcap]
      cases hclass : classify_job rule job (details job) with
      | skip => exact ih tr accepted h
      | reject r =>
        by_cases hr : rejectOk job
        · simpa [hr] using ih _ accepted h
        · simpa [hr] using ih tr accepted h
      | accept =>
        by_cases ha : acceptOk job
        · simpa [ha] using ih _ (accepted + 1) (Nat.lt_of_not_le hcap)
        · simpa [ha] using ih tr accepted h

/-- C2: one cycle invocation performs at most `maxAccept`
(`MAX_ACCEPT_PER_RUN`) accept actions, no matter how many extracted jobs are
eligible. -/
theorem persistent_bot_cycle_accept_cap (rule : ClassificationRule)
    (maxAccept : Nat) (details : Job → String) (acceptOk rejectOk : Job → Bool)
    (now : ℤ) (jobs : List Job) (tr : ResultsTracker) :
    (persistent_bot_cycle rule maxAccept details acceptOk rejectOk now jobs tr).2 ≤
      maxAccept :=
  persistent_bot_cycle_loop_le rule maxAccept details acceptOk rejectOk now jobs tr 0
    (Nat.zero_le _)

/-- Counter/length agreement of the tracker state. -/
def trackerCountersMatch (s : ResultsTracker) : Prop :=
  s.total_accepted = s.accepted_jobs.length ∧ s.total_rejected = s.rejected_jobs.length

/-- Every tracker call preserves counter/length agreement. -/
theorem applyOp_countersMatch (s : ResultsTracker) (op : TrackerOp)
    (h : trackerCountersMatch s) : trackerCountersMatch (applyOp s op) := by
  obtain ⟨h1, h2⟩ := h
  cases op with
  | addAccepted job now =>
    exact ⟨by simp [applyOp, ResultsTracker.add_accepted_job, h1], by
      simp [applyOp, ResultsTracker.add_accepted_job, h2]⟩
  | addRejected job reason now =>
    exact ⟨by simp [applyOp, ResultsTracker.add_rejected_job, h1], by
      simp [applyOp, ResultsTracker.add_rejected_job, h2]⟩
  | incrementCheckCycle now =>
    exact ⟨h1, h2⟩
  | setLoginStatus status success now =>
    exact ⟨h1, h2⟩
  | updateActivity now =>
    exact ⟨h1, h2⟩

  | reportResults now =>
    simp only [applyOp, ResultsTracker.report_results]
    split <;> exact ⟨h1, h2⟩
  | reportRejected now =>
    simp only [applyOp, ResultsTracker.report_rejected_jobs]
    split <;> exact ⟨h1, h2⟩

/-- Counter/length agreement holds after any run from any state enjoying it. -/
theorem runOps_countersMatch (ops : List TrackerOp) :
    ∀ s : ResultsTracker, trackerCountersMatch s → trackerCountersMatch (runOps s ops) := by
  induction ops with
  | nil => intro s h; exact h
  | cons op rest ih =>
    intro s h
    exact ih (applyOp s op) (applyOp_countersMatch s op h)

/-- C3: after any sequence of tracker calls on a freshly initialised tracker,
`total_accepted` equals `len(accepted_jobs)` and `total_rejected` equals
`len(rejected_jobs)`; moreover no tracker call ever decrements either
counter. -/
theorem tracker_counters_length_and_monotone :
    (∀ (ops : List TrackerOp) (ri rri now0 : ℤ),
      (runOps (ResultsTracker.init ri rri now0) ops).total_accepted =
        (runOps (ResultsTracker.init ri rri now0) ops).accepted_jobs.length ∧
      (runOps (ResultsTracker.init ri rri now0) ops).total_rejected =
        (runOps (ResultsTracker.init ri rri now0) ops).rejected_jobs.length) ∧
    ∀ (s : ResultsTracker) (op : TrackerOp),
      s.total_accepted ≤ (applyOp s op).total_accepted ∧
      s.total_rejected ≤ (applyOp s op).total_rejected := by
  constructor
  · intro ops ri rri now0
    exact runOps_countersMatch ops (ResultsTracker.init ri rri now0) ⟨rfl, rfl⟩
  · intro s op
    cases op with
    | addAccepted job now =>
      exact ⟨by simp [applyOp, ResultsTracker.add_accepted_job], by
        simp [applyOp, ResultsTracker.add_accepted_job]⟩
    | addRejected job reason now =>
      exact ⟨by simp [applyOp, ResultsTracker.add_rejected_job], by
        simp [applyOp, ResultsTracker.add_rejected_job]⟩
    | incrementCheckCycle now => exact ⟨Nat.le_refl _, Nat.le_refl _⟩
    | setLoginStatus status success now => exact ⟨Nat.le_refl _, Nat.le_refl _⟩
    | updateActivity now => exact ⟨Nat.le_refl _, Nat.le_refl _⟩
    | reportResults now =>
      simp only [applyOp, ResultsTracker.report_results]
      split <;> exact ⟨Nat.le_refl _, Nat.le_refl _⟩
    | reportRejected now =>
      simp only [applyOp, ResultsTracker.report_rejected_jobs]
      split <;> exact ⟨Nat.le_refl _, Nat.le_refl _⟩

/-- C4: with a positive report interval, `should_report` is false immediately
after a `report_results` call that actually reported (zero elapsed time since
the updated `last_report_time`), and in general `should_report` is true
exactly when the elapsed time since `last_report_time` is at least
`report_interval`. -/
theorem should_report_after_report_and_iff (s : ResultsTracker) (now : ℤ)
    (hpos : 0 < s.report_interval) (hrep : s.should_report now = true) :
    (s.report_results now).should_report now = false ∧
    ∀ t : ℤ, s.should_report t = true ↔ s.report_interval ≤ t - s.last_report_time := by
  constructor
  · unfold ResultsTracker.report_results
    rw [if_pos hrep]
    simp only [ResultsTracker.should_report, sub_self, decide_eq_false_iff_not, not_le]
    exact hpos
  · intro t
    simp [ResultsTracker.should_report]

/-- C4 witness: interval 5, last report at time 0; reporting at time 10
resets the timer so an immediate re-check is false. -/
theorem should_report_after_report_and_iff_witness :
    (ResultsTracker.init 5 43200 0).should_report 10 = true ∧
    ((ResultsTracker.init 5 43200 0).report_results 10).should_report 10 = false :=
  ⟨by decide,
   (should_report_after_report_and_iff (ResultsTracker.init 5 43200 0) 10
     (by decide) (by decide)).1⟩

/-- C9: `add_accepted_job`, `add_rejected_job` and `increment_check_cycle`
leave both `last_report_time` and `last_rejected_report_time` unchanged, and
each report call leaves the other report's timestamp unchanged. -/
theorem tracker_ops_preserve_report_times (s : ResultsTracker) (job : Job)
    (reason : String) (now : ℤ) :
    (s.add_accepted_job job now).last_report_time = s.last_report_time ∧
    (s.add_accepted_job job now).last_rejected_report_time = s.last_rejected_report_time ∧
    (s.add_rejected_job job reason now).last_report_time = s.last_report_time ∧
    (s.add_rejected_job job reason now).last_rejected_report_time =
      s.last_rejected_report_time ∧
    (s.increment_check_cycle now).last_report_time = s.last_report_time ∧
    (s.increment_check_cycle now).last_rejected_report_time =
      s.last_rejected_report_time ∧
    (s.report_results now).last_rejected_report_time = s.last_rejected_report_time ∧
    (s.report_rejected_jobs now).last_report_time = s.last_report_time := by
  refine ⟨rfl, rfl, rfl, rfl, rfl, rfl, ?_, ?_⟩
  · simp only [ResultsTracker.report_results]
    split <;> rfl
  · simp only [ResultsTracker.report_rejected_jobs]
    split <;> rfl

/-- C10: `accepted_since_last_report` counts exactly the accepted jobs whose
`accepted_timestamp` is strictly greater than `last_report_time`; an entry
whose timestamp equals `last_report_time` is not in the since-last-report
delta, while `total_accepted` is unaffected by the cutoff. -/
theorem summary_since_last_report_strict (s : ResultsTracker) (now : ℤ) :
    ((s.get_results_summary now).accepted_since_last_report =
      s.accepted_jobs.countP fun j => decide (s.last_report_time < j.accepted_timestamp)) ∧
    ((s.get_results_summary now).total_accepted = s.total_accepted) ∧
    ∀ e : AcceptedEntry,
      e ∈ (s.get_results_summary now).jobs_since_last_report ↔
        e ∈ s.accepted_jobs ∧ s.last_report_time < e.accepted_timestamp := by
  refine ⟨?_, rfl, ?_⟩
  · simp [ResultsTracker.get_results_summary, List.countP_eq_length_filter]
  · intro e
    simp [ResultsTracker.get_results_summary, List.mem_filter]

/-- C5 counterexample: under the default rule a job whose detail text matches
the excluded type "In-Person" is recorded with the fixed reason
"Face-to-face job (not telephone translation)" — the stored reason does not
contain the matched excluded type description, in any casing. -/
theorem rejection_reason_not_matched_type_counterexample :
    ((persistent_bot_cycle defaultRule 5 (fun _ => "In-Person visit required")
        (fun _ => true) (fun _ => true) 7 [jobW]
        (ResultsTracker.init 5 43200 0)).1.rejected_jobs.map
          RejectedEntry.rejection_reason = [faceToFaceReason]) ∧
    pyIn "In-Person" faceToFaceReason = false ∧
    pyIn (lowerStr "In-Person") (lowerStr faceToFaceReason) = false := by
  decide

/-- Every entry the cycle loop adds to `rejected_jobs` carries the fixed
rejection reason. -/
theorem cycle_loop_rejected_reason (rule : ClassificationRule) (maxAccept : Nat)
    (details : Job → String) (acceptOk rejectOk : Job → Bool) (now : ℤ) :
    ∀ (jobs : List Job) (tr : ResultsTracker) (acc : Nat) (e : RejectedEntry),
      e ∈ (persistent_bot_cycle_loop rule maxAccept details acceptOk rejectOk now jobs
        tr acc).1.rejected_jobs →
      e ∈ tr.rejected_jobs ∨ e.rejection_reason = faceToFaceReason := by
  intro jobs
  induction jobs with
  | nil =>
    intro tr acc e h
    exact Or.inl (by simpa [persistent_bot_cycle_loop] using h)
  | cons job rest ih =>
    intro tr acc e h
    unfold persistent_bot_cycle_loop at h
    by_cases hcap : maxAccept ≤ acc
    · rw [if_pos hcap] at h
      exact Or.inl h
    · rw [if_neg hcap] at h
      cases hclass : classify_job rule job (details job) with
      | skip =>
        simp only [hclass] at h
        exact ih tr acc e h
      | reject r =>
        simp only [hclass] at h
        by_cases hr : rejectOk job
        · rw [if_pos hr] at h
          rcases ih _ _ e h with hmem | hfix
          · simp only [ResultsTracker.add_rejected_job, List.mem_append,
              List.mem_singleton] at hmem
            rcases hmem with hmem | hentry
            · exact Or.inl hmem
            · right
              rw [hentry]
              exact classify_reject_reason rule job (details job) r hclass
          · exact Or.inr hfix
        · rw [if_neg hr] at h
          exact ih tr acc e h
      | accept =>
        simp only [hclass] at h
        by_cases ha : acceptOk job
        · rw [if_pos ha] at h
          rcases ih _ _ e h with hmem | hfix
          · exact Or.inl (by simpa [ResultsTracker.add_accepted_job] using hmem)
          · exact Or.inr hfix
        · rw [if_neg ha] at h
          exact ih tr acc e h

/-- C5 amended: whenever a cycle rejects a job over an excluded-type match,
the recorded rejection reason is the fixed string
"Face-to-face job (not telephone translation)", independent of which excluded
type matched (it is not the matched excluded type description). -/
theorem rejection_reason_fixed_string (rule : ClassificationRule)
    (maxAccept : Nat) (details : Job → String) (acceptOk rejectOk : Job → Bool)
    (now : ℤ) (jobs : List Job) (tr : ResultsTracker) (e : RejectedEntry)
    (h : e ∈ (persistent_bot_cycle rule maxAccept details acceptOk rejectOk now jobs
      tr).1.rejected_jobs) :
    e ∈ tr.rejected_jobs ∨ e.rejection_reason = faceToFaceReason :=
  cycle_loop_rejected_reason rule maxAccept details acceptOk rejectOk now jobs tr 0 e h

/-- C5 amended witness: the entry recorded for the "In-Person" job of the
counterexample carries the fixed reason. -/
theorem rejection_reason_fixed_string_witness :
    (⟨jobW, 7, faceToFaceReason⟩ : RejectedEntry) ∈
      (persistent_bot_cycle defaultRule 5 (fun _ => "In-Person visit required")
        (fun _ => true) (fun _ => true) 7 [jobW]
        (ResultsTracker.init 5 43200 0)).1.rejected_jobs ∧
    ((⟨jobW, 7, faceToFaceReason⟩ : RejectedEntry) ∈
        (ResultsTracker.init (5 : ℤ) 43200 0).rejected_jobs ∨
      (⟨jobW, 7, faceToFaceReason⟩ : RejectedEntry).rejection_reason =
        faceToFaceReason) :=
  ⟨by decide,
   rejection_reason_fixed_string defaultRule 5 (fun _ => "In-Person visit required")
     (fun _ => true) (fun _ => true) 7 [jobW] (ResultsTracker.init 5 43200 0)
     ⟨jobW, 7, faceToFaceReason⟩ (by decide)⟩

/-- A row that survives `row_to_job` has no `td[colspan]` cell and at least 8
data cells. -/
theorem row_to_job_props (row : Row) (j : Job) (h : row_to_job row = some j) :
    row.colspan_cells = [] ∧ 8 ≤ row.data_cells.length := by
  unfold row_to_job at h
  by_cases hcol : row.colspan_cells.isEmpty
  · rw [hcol] at h
    simp only [Bool.not_true, Bool.false_eq_true, if_false] at h
    by_cases hlen : row.data_cells.length < 8
    · rw [if_pos hlen] at h
      exact absurd h (by simp)
    · exact ⟨List.isEmpty_iff.mp hcol, Nat.le_of_not_lt hlen⟩
  · rw [Bool.not_eq_true] at hcol
    rw [hcol] at h
    exact absurd h (by simp)

/-- C6 counterexample: a structurally valid row whose first cell is blank
produces a `JobRecord` with an empty `ref` — `extract_jobs` performs no
non-empty-`ref` check. -/
theorem extract_jobs_empty_ref_counterexample :
    extract_jobs pageBlankRef = .ok [jobBlank] ∧ jobBlank.ref = "" := by
  constructor
  · rfl
  · rfl

/-- C6 amended: every `JobRecord` returned by `extract_jobs` comes from a row
with no spanning empty-state cell and at least 8 data cells, and any row
failing these structural checks is excluded; the `ref` field of a returned
record may be empty. -/
theorem extract_jobs_structural_filter (page : ListPage) (jobs : List Job)
    (h : extract_jobs page = .ok jobs) :
    (∀ j ∈ jobs, ∃ row ∈ page.rows,
      row.colspan_cells = [] ∧ 8 ≤ row.data_cells.length ∧ row_to_job row = some j) ∧
    (∀ row ∈ page.rows,
      (row.colspan_cells ≠ [] ∨ row.data_cells.length < 8) → row_to_job row = none) := by
  constructor
  · intro j hj
    unfold extract_jobs wait_for_selector at h
    by_cases hr : page.table_ready
    · rw [if_pos hr] at h
      simp only [Except.ok.injEq] at h
      rw [← h] at hj
      obtain ⟨row, hrow, hsome⟩ := List.mem_filterMap.mp hj
      obtain ⟨hcol, hlen⟩ := row_to_job_props row j hsome
      exact ⟨row, hrow, hcol, hlen, hsome⟩
    · rw [if_neg hr] at h
      simp only [Except.ok.injEq] at h
      rw [← h] at hj
      exact absurd hj (List.not_mem_nil j)
  · intro row _ hbad
    unfold row_to_job
    rcases hbad with hcol | hlen
    · have : row.colspan_cells.isEmpty = false := by
        simpa [List.isEmpty_iff] using hcol
      simp [this]
    · by_cases hcolE : row.colspan_cells.isEmpty
      · simp [hcolE, hlen]
      · simp [hcolE]

/-- C6 amended witness: the blank-ref row of the counterexample satisfies the
structural checks and is the source of the returned record. -/
theorem extract_jobs_structural_filter_witness :
    ∃ row ∈ pageBlankRef.rows,
      row.colspan_cells = [] ∧ 8 ≤ row.data_cells.length ∧
        row_to_job row = some jobBlank :=
  (extract_jobs_structural_filter pageBlankRef [jobBlank] rfl).1 jobBlank
    (List.mem_singleton.mpr rfl)

/-- C7: when the job-list container never becomes ready (the selector wait
times out), `extract_jobs` returns the empty sequence and raises nothing:
its result is `ok []`, never an `error`. -/
theorem extract_jobs_timeout_empty (page : ListPage)
    (h : page.table_ready = false) : extract_jobs page = .ok [] := by
  simp [extract_jobs, wait_for_selector, h]

/-- C7 witness: a timed-out page with pending rows still yields `ok []`. -/
theorem extract_jobs_timeout_empty_witness :
    extract_jobs { table_ready := false, rows := [rowBlankRef] } = .ok [] :=
  extract_jobs_timeout_empty { table_ready := false, rows := [rowBlankRef] } rfl

/-- C8: `accept_from_board` and `reject_on_detail` return `false` rather than
raising when the expected control (form or button) cannot be located or when
the underlying click throws. -/
theorem actions_return_false_on_failure (bp : BoardPage) (ref : String)
    (dp : DetailPage) :
    ((accept_target bp ref = none ∨
        ∃ b, accept_target bp ref = some b ∧ b.click_ok = false) →
      accept_from_board bp ref = false) ∧
    ((reject_target dp = none ∨
        ∃ b, reject_target dp = some b ∧ b.click_ok = false) →
      reject_on_detail dp = false) := by
  constructor
  · intro hfail
    cases hform : bp.accept_form (trimStr (headSplit ref '/')) with
    | none => simp [accept_from_board, hform, Pure.pure, Except.pure]
    | some form =>
      cases hbtn : form.primary_btn.orElse (fun _ => form.submit_btn) with
      | none => simp [accept_from_board, hform, hbtn, Pure.pure, Except.pure]
      | some btn =>
        have htgt : accept_target bp ref = some btn := by
          simp [accept_target, hform, hbtn]
        rcases hfail with hnone | ⟨b, hb, hck⟩
        · rw [htgt] at hnone
          exact absurd hnone (by simp)
        · rw [htgt] at hb
          simp only [Option.some.injEq] at hb
          rw [← hb] at hck
          simp [accept_from_board, hform, hbtn, Element.click, hck, Bind.bind,
            Except.bind]
  · intro hfail
    cases hform : dp.reject_form with
    | none =>
      cases hbtn : dp.reject_btn with
      | none => simp [reject_on_detail, hform, hbtn, Pure.pure, Except.pure]
      | some btn =>
        have htgt : reject_target dp = some btn := by
          simp [reject_target, hform, hbtn]
        rcases hfail with hnone | ⟨b, hb, hck⟩
        · rw [htgt] at hnone
          exact absurd hnone (by simp)
        · rw [htgt] at hb
          simp only [Option.some.injEq] at hb
          rw [← hb] at hck
          simp [reject_on_detail, hform, hbtn, Element.click, hck, Bind.bind,
            Except.bind]
    | some form =>
      have htgt : reject_target dp = some (form.inner_btn.getD form.self_el) := by
        simp [reject_target, hform]
      rcases hfail with hnone | ⟨b, hb, hck⟩
      · rw [htgt] at hnone
        exact absurd hnone (by simp)
      · rw [htgt] at hb
        simp only [Option.some.injEq] at hb
        rw [← hb] at hck
        simp [reject_on_detail, hform, Element.click, hck, Bind.bind, Except.bind]

/-- C8 witness: a board with no matching accept form and a detail page with
neither reject form nor reject button both yield `false`. -/
theorem actions_return_false_on_failure_witness :
    accept_from_board { accept_form := fun _ => none } "123/45" = false ∧
    reject_on_detail { reject_form := none, reject_btn := none } = false :=
  ⟨(actions_return_false_on_failure { accept_form := fun _ => none } "123/45"
      { reject_form := none, reject_btn := none }).1 (Or.inl rfl),
   (actions_return_false_on_failure { accept_form := fun _ => none } "123/45"
      { reject_form := none, reject_btn := none }).2 (Or.inl rfl)⟩
